import Mathlib

/-!
Verification development for the Recharge purchase-option observer
(`RechargePurchaseOptionObserver` and its helpers).  The JavaScript source is
shallowly embedded: pure helpers become Lean functions, the observer's mutable
state (`currentSelectedElement`) is threaded explicitly, DOM queries performed
during a mutation-processing cycle are modelled by an explicit environment, and
dispatched `CustomEvent`s become values of an `Event` type collected in a list
in dispatch order.
-/

namespace RechargeObs

/-! ## JS string utilities

`String.prototype.includes` (substring test) over explicit character lists. -/

/-- Test whether `needle` occurs at the very start of `hay`. -/
def prefixTest : List Char → List Char → Bool
  | [], _ => true
  | _ :: _, [] => false
  | a :: as, b :: bs => a = b && prefixTest as bs

/-- Substring containment: `containsSub hay needle` models
`hay.includes(needle)` on JS strings. -/
def containsSub (hay needle : List Char) : Bool :=
  prefixTest needle hay ||
    match hay with
    | [] => false
    | _ :: t => containsSub t needle

/-- `s.includes(needle)` for Lean `String`s. -/
def strIncludes (s needle : String) : Bool :=
  containsSub s.data needle.data

/-- Models `partValue && partValue.includes(needle)` where `partValue` is the
result of `getAttribute('part')` (`none` = attribute absent / `null`; an empty
attribute value is falsy in JS and never contains the non-empty marker tokens
used by the source, so it behaves like `none`). -/
def optIncludes (p : Option String) (needle : String) : Bool :=
  match p with
  | some s => strIncludes s needle
  | none => false

/-! ## A miniature regex engine

The source extracts prices with five JS regexes (`extractPriceFromElement`).
Each of those regexes is a plain concatenation of character-class atoms with
greedy quantifiers and a single capture group, so full JS regex semantics
restricted to this fragment is: leftmost match wins, and within one start
position alternatives are explored greedily with backtracking.  The engine
below implements exactly that. -/

/-- Character classes appearing in the five price regexes.  `ws` models `\s`
on the whitespace characters relevant here; `ci c` is a case-insensitive
letter (for the `/i` flag on the `USD` patterns). -/
inductive CClass
  | digit
  | digitComma
  | dot
  | dollar
  | ws
  | ci (c : Char)
deriving DecidableEq

/-- Membership test for a character class. -/
def CClass.test : CClass → Char → Bool
  | .digit, c => c.isDigit
  | .digitComma, c => c.isDigit || c = ','
  | .dot, c => c = '.'
  | .dollar, c => c = '$'
  | .ws, c => c = ' ' || c = '\t' || c = '\n' || c = '\r'
  | .ci a, c => c.toLower = a

/-- Quantifiers of the price regexes: exactly one, `?`, `*`, `+`. -/
inductive Quant
  | one
  | opt
  | star
  | plus
deriving DecidableEq

/-- One atom of a pattern: a character class, its quantifier, and whether the
consumed characters belong to capture group 1. -/
structure Piece where
  cls : CClass
  quant : Quant
  cap : Bool
deriving DecidableEq

/-- Candidate splits (consumed, remainder) for a greedy `*` or `+` over the
maximal run `run` of matching characters (`rest` is what follows the run),
longest-first, with a minimum of one character when `minOne` is set. -/
def splitsFromRun (run rest : List Char) (minOne : Bool) : List (List Char × List Char) :=
  let ks := (List.range (run.length + 1)).reverse
  let ks := if minOne then ks.filter (fun k => decide (0 < k)) else ks
  ks.map (fun k => (run.take k, run.drop k ++ rest))

/-- Candidate (consumed, remainder) splits for one piece, in greedy preference
order (the order a backtracking regex engine explores them). -/
def pieceSplits (p : Piece) (s : List Char) : List (List Char × List Char) :=
  match p.quant with
  | .one =>
    match s with
    | [] => []
    | c :: t => if p.cls.test c then [([c], t)] else []
  | .opt =>
    (match s with
     | c :: t => if p.cls.test c then [([c], t)] else []
     | [] => []) ++ [([], s)]
  | .star => splitsFromRun (s.takeWhile p.cls.test) (s.dropWhile p.cls.test) false
  | .plus => splitsFromRun (s.takeWhile p.cls.test) (s.dropWhile p.cls.test) true

/-- Backtracking matcher for a whole pattern anchored at the start of `s`:
returns the capture-group contents and the unconsumed suffix of the first
(greedy order) successful way to match, or `none`. -/
def seqMatch : List Piece → List Char → Option (List Char × List Char)
  | [] => fun s => some ([], s)
  | p :: ps => fun s =>
    (pieceSplits p s).findSome? (fun pr =>
      (seqMatch ps pr.2).map (fun qr => ((if p.cap then pr.1 else []) ++ qr.1, qr.2)))
termination_by structural l => l

/-- Unanchored search, leftmost match first (JS `String.prototype.match` with
a non-global regex): returns the capture-group contents of the match. -/
def searchPat (ps : List Piece) : List Char → Option (List Char)
  | [] => (seqMatch ps []).map (fun r => r.1)
  | c :: t =>
    match seqMatch ps (c :: t) with
    | some r => some r.1
    | none => searchPat ps t

/-! ## Price parsing -/

/-- Decimal value of a digit list (most significant first). -/
def digitsToNat (l : List Char) : Nat :=
  l.foldl (fun a c => a * 10 + (c.toNat - 48)) 0

/-- Models `str.replace(/,/g, '')`. -/
def stripCommas (l : List Char) : List Char :=
  l.filter (fun c => c ≠ ',')

/-- Models JS `parseFloat` on the comma-stripped capture of a price regex
(shape: digits, optionally a single dot, digits).  `none` models `NaN`; the
decimal number is represented exactly as a rational. -/
def parseFloatQ (s : List Char) : Option ℚ :=
  let ip := s.takeWhile Char.isDigit
  let r := s.drop ip.length
  match r with
  | '.' :: r2 =>
    let fp := r2.takeWhile Char.isDigit
    if ip.isEmpty && fp.isEmpty then none
    else some (mkRat (digitsToNat ip * 10 ^ fp.length + digitsToNat fp) (10 ^ fp.length))
  | _ => if ip.isEmpty then none else some ((digitsToNat ip : ℚ))

/-- `/\$([0-9,]+\.?\d*)/` — currency-symbol-prefixed. -/
def pat1 : List Piece :=
  [⟨.dollar, .one, false⟩, ⟨.digitComma, .plus, true⟩, ⟨.dot, .opt, true⟩,
   ⟨.digit, .star, true⟩]

/-- `/([0-9,]+\.?\d*)\s*\$/` — currency-symbol-suffixed. -/
def pat2 : List Piece :=
  [⟨.digitComma, .plus, true⟩, ⟨.dot, .opt, true⟩, ⟨.digit, .star, true⟩,
   ⟨.ws, .star, false⟩, ⟨.dollar, .one, false⟩]

/-- `/([0-9,]+\.?\d+)/` — bare decimal. -/
def pat3 : List Piece :=
  [⟨.digitComma, .plus, true⟩, ⟨.dot, .opt, true⟩, ⟨.digit, .plus, true⟩]

/-- `/USD\s*([0-9,]+\.?\d*)/i` — currency-code-prefixed. -/
def pat4 : List Piece :=
  [⟨.ci 'u', .one, false⟩, ⟨.ci 's', .one, false⟩, ⟨.ci 'd', .one, false⟩,
   ⟨.ws, .star, false⟩, ⟨.digitComma, .plus, true⟩, ⟨.dot, .opt, true⟩,
   ⟨.digit, .star, true⟩]

/-- `/([0-9,]+\.?\d*)\s*USD/i` — currency-code-suffixed. -/
def pat5 : List Piece :=
  [⟨.digitComma, .plus, true⟩, ⟨.dot, .opt, true⟩, ⟨.digit, .star, true⟩,
   ⟨.ws, .star, false⟩, ⟨.ci 'u', .one, false⟩, ⟨.ci 's', .one, false⟩,
   ⟨.ci 'd', .one, false⟩]

/-- The ordered pattern list of `extractPriceFromElement`. -/
def pricePatterns : List (List Piece) := [pat1, pat2, pat3, pat4, pat5]

/-- The value one loop iteration of `extractPriceFromElement` computes for a
single pattern: `text.match(pattern)`, the `match && match[1]` truthiness
check, comma-stripping and `parseFloat`.  `none` models "no usable value"
(no match, empty capture, or `NaN`). -/
def patternValue (ps : List Piece) (text : List Char) : Option ℚ :=
  match searchPat ps text with
  | some cap => if cap.isEmpty then none else parseFloatQ (stripCommas cap)
  | none => none

/-- The pattern loop of `extractPriceFromElement`: first pattern whose value
is strictly positive wins; every failure falls through; `0` is returned when
the list is exhausted. -/
def extractPriceLoop (text : List Char) : List (List Piece) → ℚ
  | [] => 0
  | p :: ps =>
    match patternValue p text with
    | some v => if 0 < v then v else extractPriceLoop text ps
    | none => extractPriceLoop text ps

/-- `extractPriceFromElement`: extract a price from the element's text
content (the element's `textContent`/`innerText` are modelled as one text). -/
def extractPriceFromElement (text : List Char) : ℚ :=
  extractPriceLoop text pricePatterns

/-- Engine validation: a dollar-prefixed price. -/
theorem priceCheck_dollar : extractPriceFromElement ("$10.00".data) = 10 := by decide

/-- Engine validation: a non-integer dollar-prefixed price. -/
theorem priceCheck_cents : extractPriceFromElement ("$8.50".data) = mkRat 17 2 := by
  decide

/-- Engine validation: comma grouping is stripped before parsing. -/
theorem priceCheck_comma :
    extractPriceFromElement ("1,299.50".data) = mkRat 129950 100 := by decide

/-- Engine validation: currency-code-suffixed price (a single digit cannot
match the bare-decimal pattern, whose trailing `\d+` needs a second
character). -/
theorem priceCheck_usd : extractPriceFromElement ("5 USD".data) = 5 := by decide

/-- Engine validation: the `USD` patterns are case-insensitive. -/
theorem priceCheck_usd_ci : extractPriceFromElement ("usd 7".data) = 7 := by decide

/-- Engine validation: greedy backtracking on a trailing dot. -/
theorem priceCheck_backtrack : extractPriceFromElement ("29.x".data) = 29 := by
  decide

/-- Engine validation: empty text fails. -/
theorem priceCheck_empty : extractPriceFromElement ("".data) = 0 := by decide

/-- Engine validation: a zero price is rejected. -/
theorem priceCheck_zero : extractPriceFromElement ("$0.00".data) = 0 := by decide

/-- Engine validation: a non-positive match on an earlier pattern falls
through to a later pattern that yields a positive value. -/
theorem priceCheck_fallthrough :
    extractPriceFromElement ("$0 but 5.25".data) = mkRat 525 100 := by decide

/-- Engine validation: text without digits fails. -/
theorem priceCheck_nodigits : extractPriceFromElement ("no price".data) = 0 := by
  decide

/-- Engine validation: dollar-suffixed price. -/
theorem priceCheck_suffix : extractPriceFromElement ("10.00 $".data) = 10 := by
  decide

/-! ## DOM model

The observer reads the widget DOM only through: the `part` attribute of the
mutated element, `closest('[part*="rc-purchase-option"]')` and the
`parentNode` chain (for plan-kind classification), and `querySelector` with
exact `[part="…"]` selectors inside the container (for the price node).  A
node is therefore modelled by its identity (JS object identity becomes a
numeric id), its `part` attribute, and its markup/text; the selected element
carries its ancestor-or-self chain, each chain node listing the descendants
visible to `querySelector` in document order. -/

/-- A descendant node as seen by `querySelector`: identity, `part` attribute,
`innerHTML` and text content. -/
structure DNode where
  id : Nat
  part : Option String
  innerHTML : List Char
  text : List Char
deriving DecidableEq

/-- One node of the ancestor-or-self chain of the selected element: its
`part` attribute (`none` for a node with no `getAttribute`, e.g. the shadow
root) and its descendants in document order. -/
structure ChainNode where
  part : Option String
  descendants : List DNode
deriving DecidableEq

/-- The currently marked-selected element: identity plus its
ancestor-or-self chain (head = the element itself, then `parentNode`s). -/
structure SelElem where
  id : Nat
  chain : List ChainNode
deriving DecidableEq

/-- The element's own `getAttribute('part')`. -/
def SelElem.partAttr (s : SelElem) : Option String :=
  match s.chain with
  | [] => none
  | c :: _ => c.part

/-- Walk up from the element looking for the first ancestor-or-self whose
`part` contains the token (`Element.closest` with a `[part*=…]` selector);
`none` when no ancestor matches. -/
def dropToContainer : List ChainNode → Option (List ChainNode)
  | [] => none
  | c :: t =>
    if optIncludes c.part "rc-purchase-option" then some (c :: t)
    else dropToContainer t

/-- Models `selectedElement.closest('[part*="rc-purchase-option"]') ||
selectedElement`: the chain starting at the container, falling back to the
element's own chain. -/
def containerChain (chain : List ChainNode) : List ChainNode :=
  match dropToContainer chain with
  | some l => l
  | none => chain

/-- The bounded ancestor walk shared by `isOneTimeOption` and
`isSubscriptionOption`: starting at depth `depth`, check at most the nodes at
depths `< 10` for a `part` value containing `needle`. -/
def walkIncludes (needle : String) : List ChainNode → Nat → Bool
  | [], _ => false
  | c :: rest, depth =>
    if depth < 10 then
      optIncludes c.part needle || walkIncludes needle rest (depth + 1)
    else false

/-- `isOneTimeOption`: some ancestor-or-self within depth 10 carries a
`part` containing `onetime`. -/
def isOneTimeOption (chain : List ChainNode) : Bool :=
  walkIncludes "onetime" chain 0

/-- `isSubscriptionOption`: some ancestor-or-self within depth 10 carries a
`part` containing `subscription`. -/
def isSubscriptionOption (chain : List ChainNode) : Bool :=
  walkIncludes "subscription" chain 0

/-- `container.querySelector('[part="v"]')`: first descendant in document
order whose `part` attribute equals `v` exactly. -/
def qsExactPart (ns : List DNode) (v : String) : Option DNode :=
  ns.find? (fun n => decide (n.part = some v))

/-- Descendants of the container the price lookups run on. -/
def containerDescendants (sel : SelElem) : List DNode :=
  match containerChain sel.chain with
  | [] => []
  | c :: _ => c.descendants

/-- Plan kinds (`planType` strings of the source). -/
inductive PlanType
  | oneTime
  | subscription
  | unknown
deriving DecidableEq

/-- The record returned by a successful `extractPriceData`. -/
structure PriceData where
  price : ℚ
  planType : PlanType
  hasDiscount : Bool
  priceElement : DNode
deriving DecidableEq

/-- The price-node lookup of `extractPriceData`: classification followed by
the branch-specific `querySelector` calls, producing the price element, the
`planType` and the `hasDiscount` flag (or `none` when no price element is
found — including the `planType = 'unknown'` branch, which never looks up a
price node). -/
def priceNodeLookup (sel : SelElem) : Option (DNode × PlanType × Bool) :=
  if isOneTimeOption (containerChain sel.chain) then
    (qsExactPart (containerDescendants sel) "rc-purchase-option__price").map
      (fun e => (e, PlanType.oneTime, false))
  else if isSubscriptionOption (containerChain sel.chain) then
    match qsExactPart (containerDescendants sel) "rc-purchase-option__discounted-price" with
    | some e => some (e, PlanType.subscription, true)
    | none =>
      (qsExactPart (containerDescendants sel) "rc-purchase-option__unit-price").map
        (fun e => (e, PlanType.subscription, false))
  else none

/-- `extractPriceData`: the lookup above followed by price extraction; the
`!price || price <= 0` guard makes success exactly `0 < price`.  `none` is
the extraction-failure marker (surfaced as a `console.warn` in the source). -/
def extractPriceData (sel : SelElem) : Option PriceData :=
  match priceNodeLookup sel with
  | none => none
  | some (e, pt, hd) =>
    if 0 < extractPriceFromElement e.text then
      some ⟨extractPriceFromElement e.text, pt, hd, e⟩
    else none

/-! ## Events and dispatch -/

/-- `changeType` values of the `recharge:selection:change` event. -/
inductive ChangeType
  | selection
  | initialLoad
deriving DecidableEq

/-- The variant descriptor dispatched with a `VariantUpdateEvent` (the fields
the source reads or synthesizes; a parsed snapshot's remaining fields are
irrelevant to the observer).  `id = none` models a JS `null`/`undefined` id. -/
structure VariantResource where
  id : Option String
  available : Bool
  inventory_management : Bool
deriving DecidableEq

/-- Outward events in dispatch order.  `selectionChanged` models the
`recharge:selection:change` `CustomEvent` (selected node identity, price,
plan type, discount flag, change type); `variantUpdated` models
`ThemeEvents.variantUpdate` dispatched from the product form (resource,
synthetic price markup, product id). -/
inductive Event
  | selectionChanged (selId : Nat) (price : ℚ) (planType : PlanType)
      (hasDiscount : Bool) (changeType : ChangeType)
  | variantUpdated (resource : VariantResource) (priceHTML : List Char)
      (productId : String)
deriving DecidableEq

/-- Is the event a `recharge:selection:change`? -/
def Event.isSelChange : Event → Bool
  | .selectionChanged _ _ _ _ _ => true
  | .variantUpdated _ _ _ => false

/-- Number of `recharge:selection:change` events in a dispatch list. -/
def countSel : List Event → Nat
  | [] => 0
  | e :: t => (if e.isSelChange then 1 else 0) + countSel t

/-- Product-form state read by `dispatchVariantUpdateEvent`: `variantId` is
`input[name="id"].value || null` (so `none` covers both a missing input and
an empty value) and `productId` is `dataset.productId || ''`. -/
structure FormInfo where
  variantId : Option String
  productId : String
deriving DecidableEq

/-- A parsed variant snapshot: each field may be absent (`undefined`). -/
structure VariantObj where
  id : Option String
  available : Option Bool
  inventory_management : Option Bool
deriving DecidableEq

/-- State of the variant-picker JSON script: absent (no `variant-picker`, no
script tag, or empty text), malformed (`JSON.parse` throws), or parsed. -/
inductive VariantJson
  | absent
  | malformed
  | parsed (v : VariantObj)
deriving DecidableEq

/-- JS falsiness of a string-valued id (`null`/`undefined` or `''`). -/
def jsFalsyId : Option String → Bool
  | none => true
  | some s => decide (s = "")

/-- The variant-resource resolution of `dispatchVariantUpdateEvent`: parse
result enriched with the live form id and defaulted fields, or the minimal
fallback `{id: variantId || '', available: true, inventory_management:
false}` when the snapshot is missing or unparsable. -/
def resolveVariantResource (variantId : Option String) (vj : VariantJson) :
    VariantResource :=
  match vj with
  | .parsed v =>
    let id1 :=
      match variantId with
      | some vid => if v.id = some vid then v.id else some vid
      | none => v.id
    let id2 :=
      match variantId with
      | some vid => if jsFalsyId id1 then some vid else id1
      | none => id1
    { id := id2
      available := v.available.getD true
      inventory_management := v.inventory_management.getD false }
  | _ => { id := some (variantId.getD ""), available := true, inventory_management := false }

/-- The DOM environment a mutation-processing cycle queries: the currently
marked-selected element inside the observe target (result of
`querySelector('[part*="rc-purchase-option__selected"]')`), whether an
observe target exists at all, the product form, and the variant JSON state. -/
structure Env where
  observeTargetPresent : Bool
  selectedInWidget : Option SelElem
  productForm : Option FormInfo
  variantJson : VariantJson
deriving DecidableEq

/-- The synthetic price markup: `priceElement.innerHTML ||
priceElement.textContent || ''`. -/
def jsPriceHTML (pe : DNode) : List Char :=
  match pe.innerHTML with
  | [] => pe.text
  | c :: t => c :: t

/-- `dispatchVariantUpdateEvent`: bails without an event when there is no
`product-form-component` or when the price markup is empty; otherwise emits
exactly one `variantUpdated` carrying the resolved resource. -/
def dispatchVariantUpdateEvent (env : Env) (pe : DNode) : List Event :=
  match env.productForm with
  | none => []
  | some form =>
    match jsPriceHTML pe with
    | [] => []
    | c :: t =>
      [.variantUpdated (resolveVariantResource form.variantId env.variantJson)
        (c :: t) form.productId]

/-- Observer state that survives between cycles: the identity of
`this.currentSelectedElement`. -/
structure ObsState where
  currentSelectedElement : Option Nat
deriving DecidableEq

/-- `dispatchPurchaseOptionChangeEvent`: the `recharge:selection:change`
event first, then (the price element always being non-null here) the
companion `ThemeEvents.variantUpdate`. -/
def dispatchPurchaseOptionChangeEvent (env : Env) (sel : SelElem)
    (pd : PriceData) (ct : ChangeType) : List Event :=
  .selectionChanged sel.id pd.price pd.planType pd.hasDiscount ct ::
    dispatchVariantUpdateEvent env pd.priceElement

/-- `handlePurchaseOptionSelected`: unconditionally records the element as
current (before extraction), then dispatches if extraction succeeds. -/
def handlePurchaseOptionSelected (env : Env) (sel : SelElem) :
    ObsState × List Event :=
  match extractPriceData sel with
  | some pd => (⟨some sel.id⟩, dispatchPurchaseOptionChangeEvent env sel pd .selection)
  | none => (⟨some sel.id⟩, [])

/-- `checkForPriceUpdate`: re-query the selected element; same identity as
`currentSelectedElement` means price-only update (`variantUpdated` alone),
a different element is handled as a selection change. -/
def checkForPriceUpdate (env : Env) (st : ObsState) : ObsState × List Event :=
  if env.observeTargetPresent then
    match env.selectedInWidget with
    | none => (st, [])
    | some sel =>
      if st.currentSelectedElement = some sel.id then
        match extractPriceData sel with
        | some pd => (st, dispatchVariantUpdateEvent env pd.priceElement)
        | none => (st, [])
      else handlePurchaseOptionSelected env sel
  else (st, [])

/-- One `MutationRecord` as classified by `handleSelectionMutations`:
a `part`-attribute mutation (the observer's `attributeFilter` delivers no
other attribute), a character-data mutation whose target is a text node with
a price-related parent (the Boolean abstracts that DOM test), or a
child-list mutation that added/removed a price-related element. -/
inductive MutationRec
  | attrPart (target : SelElem)
  | charData (priceRelated : Bool)
  | childList (priceRelated : Bool)
deriving DecidableEq

/-- Processing of a single mutation record in `handleSelectionMutations`. -/
def processMutation (env : Env) (st : ObsState) : MutationRec → ObsState × List Event
  | .attrPart target =>
    if optIncludes target.partAttr "rc-purchase-option__selected" then
      handlePurchaseOptionSelected env target
    else (st, [])
  | .charData pr => if pr then checkForPriceUpdate env st else (st, [])
  | .childList pr => if pr then checkForPriceUpdate env st else (st, [])

/-- One mutation-processing cycle: the observer callback folds over the
delivered records, threading `currentSelectedElement` and concatenating
dispatched events in order. -/
def processCycle (env : Env) (st : ObsState) : List MutationRec → ObsState × List Event
  | [] => (st, [])
  | m :: ms =>
    let r1 := processMutation env st m
    let r2 := processCycle env r1.1 ms
    (r2.1, r1.2 ++ r2.2)

/-! ## Discovery, content-ready check and teardown

`retryFindShadowRoot` re-runs itself through `setTimeout` with an incremented
attempt counter.  A single invocation is modelled by `retryCall`, returning
the new session state, the dispatched events, and the attempt number of the
newly scheduled timer (`none` when no timer is scheduled).  The scheduled
timer lives on the host task queue: the session object holds no handle to it,
exactly as in the source, where the `setTimeout` id is discarded.
`retryRun` is the timer-driven chain of invocations when no teardown
intervenes. -/

/-- Watcher/handle state of one observer session: whether the shadow-root
container was found and which of the three `MutationObserver`s are currently
attached, plus the inner selection state. -/
structure DiscState where
  container : Bool
  selObs : Bool
  widgetContentObs : Bool
  widgetObs : Bool
  obs : ObsState
deriving DecidableEq

/-- Environment of the discovery phase: at which timer firings the widget's
shadow root is exposed, whether the widget content (price elements) is
already loaded, whether subscription options are available
(`hasSubscriptionOptionsAvailable`), and the DOM environment used by
dispatch. -/
structure DiscEnv where
  foundAt : Nat → Bool
  contentLoaded : Bool
  hasSubscriptionOpts : Bool
  env : Env

/-- `checkForInitialSelection`: requires an observe target and available
subscription options, then records the selected element and dispatches with
`changeType = 'initial-load'` when extraction succeeds. -/
def checkForInitialSelection (e : DiscEnv) (s : DiscState) : ObsState × List Event :=
  if s.container || e.env.observeTargetPresent then
    if e.hasSubscriptionOpts then
      match e.env.selectedInWidget with
      | some sel =>
        match extractPriceData sel with
        | some pd =>
          (⟨some sel.id⟩, dispatchPurchaseOptionChangeEvent e.env sel pd .initialLoad)
        | none => (⟨some sel.id⟩, [])
      | none => (s.obs, [])
    else (s.obs, [])
  else (s.obs, [])

/-- `setupSelectionObserver` followed by `setupWidgetContentObserver`:
attaches the selection observer, then either runs the one-shot initial
selection check (content already loaded) or attaches the content-ready
observer. -/
def setupSelectionObserverD (e : DiscEnv) (s : DiscState) : DiscState × List Event :=
  if s.container || e.env.observeTargetPresent then
    if e.contentLoaded then
      let r := checkForInitialSelection e { s with selObs := true }
      ({ s with selObs := true, obs := r.1 }, r.2)
    else ({ s with selObs := true, widgetContentObs := true }, [])
  else (s, [])

/-- One invocation of `retryFindShadowRoot` at a given attempt number.  On
success: record the container, stop the widget observer, and set up the
selection observer if absent.  On failure with attempts remaining: schedule
the next invocation (`some (attempt+1)`); the timer id is not kept anywhere
in the session state.  After the budget: do nothing. -/
def retryCall (e : DiscEnv) (attempt : Nat) (s : DiscState) :
    DiscState × List Event × Option Nat :=
  if e.foundAt attempt then
    let s1 := { s with container := true, widgetObs := false }
    if s1.selObs then (s1, [], none)
    else
      let r := setupSelectionObserverD e s1
      (r.1, r.2, none)
  else if attempt < 10 then (s, [], some (attempt + 1))
  else (s, [], none)

/-- The full timer-driven chain of `retryFindShadowRoot` invocations when no
teardown intervenes, returning the final state, all dispatched events, and
the list of attempt numbers at which invocations ran. -/
def retryRun (e : DiscEnv) (attempt : Nat) (s : DiscState) :
    DiscState × List Event × List Nat :=
  if e.foundAt attempt then
    let s1 := { s with container := true, widgetObs := false }
    if s1.selObs then (s1, [], [attempt])
    else
      let r := setupSelectionObserverD e s1
      (r.1, r.2, [attempt])
  else if attempt < 10 then
    let r := retryRun e (attempt + 1) s
    (r.1, r.2.1, attempt :: r.2.2)
  else (s, [], [attempt])
termination_by 10 - attempt
decreasing_by omega

/-- `destroy`: disconnect and null the three observers and clear
`currentSelectedElement`.  `rechargeContainer` is kept and — crucially — no
pending `setTimeout` is touched (the source never stores the timer id). -/
def destroyObserver (s : DiscState) : DiscState :=
  { s with selObs := false, widgetContentObs := false, widgetObs := false, obs := ⟨none⟩ }

/-! ## Concrete fixtures used by counterexamples and witnesses -/

/-- A one-time price node showing `$10.00`. -/
def priceNode10 : DNode :=
  ⟨2, some "rc-purchase-option__price", "$10.00".data, "$10.00".data⟩

/-- A purchase-option element marked selected and carrying the one-time
token, containing `priceNode10`. -/
def oneTimeChain : ChainNode :=
  ⟨some "rc-purchase-option rc-purchase-option__onetime rc-purchase-option__selected",
   [priceNode10]⟩

/-- A selected one-time option (identity 1). -/
def selOneTime : SelElem := ⟨1, [oneTimeChain]⟩

/-- A product form with live variant id `111` and product id `prod-1`. -/
def formA : FormInfo := ⟨some "111", "prod-1"⟩

/-- Environment with a product form and no variant snapshot. -/
def envWithForm : Env := ⟨true, some selOneTime, some formA, .absent⟩

/-- Environment without a `product-form-component`. -/
def envNoForm : Env := ⟨true, some selOneTime, none, .absent⟩

/-- Environment whose variant snapshot fails `JSON.parse`. -/
def envMalformed : Env := ⟨true, some selOneTime, some formA, .malformed⟩

/-- A subscription-discounted price node showing `$8.50`. -/
def priceNodeSub : DNode :=
  ⟨3, some "rc-purchase-option__price", "$8.50".data, "$8.50".data⟩

/-- A selected element whose own `part` carries the subscription token while
an ancestor two levels up carries the one-time token. -/
def selMixed : SelElem :=
  ⟨4, [⟨some "rc-purchase-option rc-purchase-option__subscription rc-purchase-option__selected",
        [priceNodeSub]⟩,
       ⟨some "plan-list__onetime", []⟩]⟩

/-- Initial session state: nothing found, nothing attached. -/
def discInit : DiscState := ⟨false, false, false, false, ⟨none⟩⟩

/-- Discovery environment where the shadow root becomes available from the
second invocation (attempt 1) on, with widget content not yet loaded. -/
def discEnvLate : DiscEnv :=
  ⟨fun n => decide (1 ≤ n), false, false, envNoForm⟩

/-- Fixture validation: extraction on the one-time fixture. -/
theorem fixtureCheck_extract :
    extractPriceData selOneTime = some ⟨10, .oneTime, false, priceNode10⟩ := by
  decide

/-- Fixture validation: a full selection cycle dispatches the
selection-change/variant-update pair. -/
theorem fixtureCheck_cycle :
    (processCycle envWithForm ⟨none⟩ [.attrPart selOneTime]).2 =
      [.selectionChanged 1 10 .oneTime false .selection,
       .variantUpdated ⟨some "111", true, false⟩ ("$10.00".data) "prod-1"] := by
  decide

/-! ## Helper lemmas -/

theorem extractPriceFromElement_nil : extractPriceFromElement [] = 0 := by decide

/-- A successful extraction forces a non-empty text on the price element. -/
theorem extract_pos_text_ne_nil (text : List Char)
    (h : 0 < extractPriceFromElement text) : text ≠ [] := by
  intro hn
  subst hn
  rw [extractPriceFromElement_nil] at h
  exact lt_irrefl 0 h

/-- Inversion of a successful `extractPriceData`. -/
theorem extract_some_eq (sel : SelElem) (pd : PriceData)
    (h : extractPriceData sel = some pd) :
    priceNodeLookup sel = some (pd.priceElement, pd.planType, pd.hasDiscount) ∧
    pd.price = extractPriceFromElement pd.priceElement.text ∧
    0 < extractPriceFromElement pd.priceElement.text := by
  unfold extractPriceData at h
  split at h
  · exact absurd h (by simp)
  · next e pt hd heq =>
    split at h
    · next hp =>
      injection h with h2
      subst h2
      exact ⟨heq, rfl, hp⟩
    · exact absurd h (by simp)

/-- The price markup is non-empty as soon as text or markup is. -/
theorem jsPriceHTML_ne (pe : DNode) (h : pe.text ≠ [] ∨ pe.innerHTML ≠ []) :
    jsPriceHTML pe ≠ [] := by
  rcases hi : pe.innerHTML with _ | ⟨c, t⟩
  · rcases h with h | h
    · simpa [jsPriceHTML, hi] using h
    · exact absurd hi h
  · simp [jsPriceHTML, hi]

/-- With a product form present and non-empty markup,
`dispatchVariantUpdateEvent` emits exactly its one event. -/
theorem dispatchVU_form_some (env : Env) (form : FormInfo) (pe : DNode)
    (hf : env.productForm = some form) (hp : jsPriceHTML pe ≠ []) :
    dispatchVariantUpdateEvent env pe =
      [Event.variantUpdated (resolveVariantResource form.variantId env.variantJson)
        (jsPriceHTML pe) form.productId] := by
  unfold dispatchVariantUpdateEvent
  rw [hf]
  rcases hj : jsPriceHTML pe with _ | ⟨c, t⟩
  · exact absurd hj hp
  · simp

/-- `dispatchVariantUpdateEvent` never emits a selection-change event. -/
theorem dispatchVU_countSel (env : Env) (pe : DNode) :
    countSel (dispatchVariantUpdateEvent env pe) = 0 := by
  unfold dispatchVariantUpdateEvent
  rcases env.productForm with _ | form
  · rfl
  · rcases jsPriceHTML pe with _ | ⟨c, t⟩
    · rfl
    · rfl

/-- `dispatchVariantUpdateEvent` emits at most one event, and only a
`variantUpdated` one. -/
theorem dispatchVU_shape (env : Env) (pe : DNode) :
    dispatchVariantUpdateEvent env pe = [] ∨
    ∃ form, env.productForm = some form ∧
      dispatchVariantUpdateEvent env pe =
        [Event.variantUpdated (resolveVariantResource form.variantId env.variantJson)
          (jsPriceHTML pe) form.productId] := by
  unfold dispatchVariantUpdateEvent
  rcases hf : env.productForm with _ | form
  · exact Or.inl rfl
  · rcases hj : jsPriceHTML pe with _ | ⟨c, t⟩
    · exact Or.inl rfl
    · exact Or.inr ⟨form, rfl, by simp [hj]⟩

/-- `handlePurchaseOptionSelected` on extraction failure: state recorded,
nothing dispatched. -/
theorem handle_none (env : Env) (sel : SelElem)
    (h : extractPriceData sel = none) :
    handlePurchaseOptionSelected env sel = (⟨some sel.id⟩, []) := by
  unfold handlePurchaseOptionSelected
  rw [h]

/-- `handlePurchaseOptionSelected` on extraction success: state recorded,
selection-change event first, then the companion variant update. -/
theorem handle_some (env : Env) (sel : SelElem) (pd : PriceData)
    (h : extractPriceData sel = some pd) :
    handlePurchaseOptionSelected env sel =
      (⟨some sel.id⟩,
        Event.selectionChanged sel.id pd.price pd.planType pd.hasDiscount
            ChangeType.selection ::
          dispatchVariantUpdateEvent env pd.priceElement) := by
  unfold handlePurchaseOptionSelected
  rw [h]
  rfl

/-- With a product form present, `handlePurchaseOptionSelected` emits either
nothing or exactly the pair selection-change followed by variant-update. -/
theorem handle_form (env : Env) (sel : SelElem) (form : FormInfo)
    (hf : env.productForm = some form) :
    countSel (handlePurchaseOptionSelected env sel).2 = 0 ∨
    ∃ sid price pt hd ph,
      (handlePurchaseOptionSelected env sel).2 =
        [Event.selectionChanged sid price pt hd ChangeType.selection,
         Event.variantUpdated (resolveVariantResource form.variantId env.variantJson)
           ph form.productId] := by
  rcases hx : extractPriceData sel with _ | pd
  · rw [handle_none env sel hx]
    exact Or.inl rfl
  · right
    have hptext : pd.priceElement.text ≠ [] :=
      extract_pos_text_ne_nil _ (extract_some_eq sel pd hx).2.2
    refine ⟨sel.id, pd.price, pd.planType, pd.hasDiscount,
      jsPriceHTML pd.priceElement, ?_⟩
    rw [handle_some env sel pd hx]
    rw [show (((⟨some sel.id⟩ : ObsState),
        Event.selectionChanged sel.id pd.price pd.planType pd.hasDiscount
            ChangeType.selection ::
          dispatchVariantUpdateEvent env pd.priceElement)).2 =
        Event.selectionChanged sel.id pd.price pd.planType pd.hasDiscount
            ChangeType.selection ::
          dispatchVariantUpdateEvent env pd.priceElement from rfl]
    rw [dispatchVU_form_some env form pd.priceElement hf
      (jsPriceHTML_ne _ (Or.inl hptext))]

/-- `checkForPriceUpdate` without an observe target is a no-op. -/
theorem checkPU_no_target (env : Env) (st : ObsState)
    (ht : env.observeTargetPresent = false) :
    checkForPriceUpdate env st = (st, []) := by
  unfold checkForPriceUpdate
  simp [ht]

/-- `checkForPriceUpdate` with no selected element is a no-op. -/
theorem checkPU_no_sel (env : Env) (st : ObsState)
    (ht : env.observeTargetPresent = true)
    (hs : env.selectedInWidget = none) :
    checkForPriceUpdate env st = (st, []) := by
  unfold checkForPriceUpdate
  simp [ht, hs]

/-- `checkForPriceUpdate` on the unchanged selected element with successful
extraction: a variant update alone, state untouched. -/
theorem checkPU_same_some (env : Env) (st : ObsState) (sel : SelElem)
    (pd : PriceData)
    (ht : env.observeTargetPresent = true)
    (hs : env.selectedInWidget = some sel)
    (hid : st.currentSelectedElement = some sel.id)
    (hx : extractPriceData sel = some pd) :
    checkForPriceUpdate env st = (st, dispatchVariantUpdateEvent env pd.priceElement) := by
  unfold checkForPriceUpdate
  simp [ht, hs, hid, hx]

/-- `checkForPriceUpdate` on the unchanged selected element with failed
extraction: a no-op. -/
theorem checkPU_same_none (env : Env) (st : ObsState) (sel : SelElem)
    (ht : env.observeTargetPresent = true)
    (hs : env.selectedInWidget = some sel)
    (hid : st.currentSelectedElement = some sel.id)
    (hx : extractPriceData sel = none) :
    checkForPriceUpdate env st = (st, []) := by
  unfold checkForPriceUpdate
  simp [ht, hs, hid, hx]

/-- `checkForPriceUpdate` on a different selected element behaves as a
selection change. -/
theorem checkPU_diff (env : Env) (st : ObsState) (sel : SelElem)
    (ht : env.observeTargetPresent = true)
    (hs : env.selectedInWidget = some sel)
    (hid : ¬ st.currentSelectedElement = some sel.id) :
    checkForPriceUpdate env st = handlePurchaseOptionSelected env sel := by
  unfold checkForPriceUpdate
  simp [ht, hs, hid]

/-- With a product form present, `checkForPriceUpdate` emits either no
selection change or exactly the selection-change/variant-update pair. -/
theorem checkPU_form_shape (env : Env) (st : ObsState) (form : FormInfo)
    (hf : env.productForm = some form) :
    countSel (checkForPriceUpdate env st).2 = 0 ∨
    ∃ sid price pt hd ph,
      (checkForPriceUpdate env st).2 =
        [Event.selectionChanged sid price pt hd ChangeType.selection,
         Event.variantUpdated (resolveVariantResource form.variantId env.variantJson)
           ph form.productId] := by
  rcases ht : env.observeTargetPresent with _ | _
  · rw [checkPU_no_target env st ht]
    exact Or.inl rfl
  · rcases hs : env.selectedInWidget with _ | sel
    · rw [checkPU_no_sel env st ht hs]
      exact Or.inl rfl
    · by_cases hid : st.currentSelectedElement = some sel.id
      · rcases hx : extractPriceData sel with _ | pd
        · rw [checkPU_same_none env st sel ht hs hid hx]
          exact Or.inl rfl
        · rw [checkPU_same_some env st sel pd ht hs hid hx]
          exact Or.inl (dispatchVU_countSel env pd.priceElement)
      · rw [checkPU_diff env st sel ht hs hid]
        exact handle_form env sel form hf

/-! ## Claim theorems -/

/-- Claim C5 (confirmed): for a one-time plan the price node is the single
price marker; for a subscription plan the discounted-price marker is used
when present, otherwise the unit-price marker; and `hasDiscount` is true iff
the discounted-price marker was present and was the node used. -/
theorem C5_price_node_lookup (sel : SelElem) (pd : PriceData)
    (h : extractPriceData sel = some pd) :
    (pd.planType = PlanType.oneTime →
      qsExactPart (containerDescendants sel) "rc-purchase-option__price" =
        some pd.priceElement ∧ pd.hasDiscount = false) ∧
    (pd.planType = PlanType.subscription →
      (qsExactPart (containerDescendants sel) "rc-purchase-option__discounted-price" =
          some pd.priceElement ∧ pd.hasDiscount = true) ∨
      (qsExactPart (containerDescendants sel) "rc-purchase-option__discounted-price" = none ∧
       qsExactPart (containerDescendants sel) "rc-purchase-option__unit-price" =
          some pd.priceElement ∧ pd.hasDiscount = false)) ∧
    (pd.hasDiscount = true ↔
      pd.planType = PlanType.subscription ∧
      qsExactPart (containerDescendants sel) "rc-purchase-option__discounted-price" =
        some pd.priceElement) := by
  obtain ⟨hl, -, -⟩ := extract_some_eq sel pd h
  unfold priceNodeLookup at hl
  split at hl
  · rcases hq : qsExactPart (containerDescendants sel) "rc-purchase-option__price"
      with _ | e
    · rw [hq] at hl; cases hl
    · rw [hq] at hl
      simp only [Option.map_some'] at hl
      injection hl with hl2
      obtain ⟨he, hpt, hhd⟩ : e = pd.priceElement ∧
          PlanType.oneTime = pd.planType ∧ false = pd.hasDiscount := by
        simpa [Prod.mk.injEq] using hl2
      rw [← hpt, ← hhd, ← he]
      simp [hq]
  · split at hl
    · rcases hq : qsExactPart (containerDescendants sel)
          "rc-purchase-option__discounted-price" with _ | e
      · rw [hq] at hl
        rcases hq2 : qsExactPart (containerDescendants sel)
            "rc-purchase-option__unit-price" with _ | e2
        · rw [hq2] at hl; cases hl
        · rw [hq2] at hl
          simp only [Option.map_some'] at hl
          injection hl with hl2
          obtain ⟨he, hpt, hhd⟩ : e2 = pd.priceElement ∧
              PlanType.subscription = pd.planType ∧ false = pd.hasDiscount := by
            simpa [Prod.mk.injEq] using hl2
          rw [← hpt, ← hhd, ← he]
          simp [hq, hq2]
      · rw [hq] at hl
        injection hl with hl2
        obtain ⟨he, hpt, hhd⟩ : e = pd.priceElement ∧
            PlanType.subscription = pd.planType ∧ true = pd.hasDiscount := by
          simpa [Prod.mk.injEq] using hl2
        rw [← hpt, ← hhd, ← he]
        simp [hq]
    · cases hl

/-- Witness for C5 on the concrete one-time fixture. -/
theorem C5_price_node_lookup_witness :
    qsExactPart (containerDescendants selOneTime) "rc-purchase-option__price" =
      some priceNode10 ∧ false = false :=
  (C5_price_node_lookup selOneTime ⟨10, PlanType.oneTime, false, priceNode10⟩
    (by decide)).1 rfl

/-- Claim C8 (confirmed): when the serialized variant snapshot is missing or
fails to parse, the minimal fallback descriptor
`{id: formId, available: true, inventory_management: false}` is synthesized
and a `VariantUpdated` event is still dispatched carrying it. -/
theorem C8_fallback_snapshot (env : Env) (form : FormInfo) (pe : DNode)
    (hf : env.productForm = some form)
    (hj : env.variantJson = VariantJson.malformed ∨ env.variantJson = VariantJson.absent)
    (hp : pe.text ≠ [] ∨ pe.innerHTML ≠ []) :
    dispatchVariantUpdateEvent env pe =
      [Event.variantUpdated ⟨some (form.variantId.getD ""), true, false⟩
        (jsPriceHTML pe) form.productId] := by
  rw [dispatchVU_form_some env form pe hf (jsPriceHTML_ne pe hp)]
  have hres : resolveVariantResource form.variantId env.variantJson =
      ⟨some (form.variantId.getD ""), true, false⟩ := by
    rcases hj with hj | hj <;> rw [hj] <;> rfl
  rw [hres]

/-- Witness for C8 on the malformed-snapshot fixture. -/
theorem C8_fallback_snapshot_witness :
    dispatchVariantUpdateEvent envMalformed priceNode10 =
      [Event.variantUpdated ⟨some "111", true, false⟩
        (jsPriceHTML priceNode10) "prod-1"] :=
  C8_fallback_snapshot envMalformed formA priceNode10 rfl (Or.inl rfl)
    (Or.inl (by decide))

/-- Counterexample to C1 as stated: with the previously dispatched node
(identity 1) still recorded as current, a `part`-attribute mutation whose
value still contains the selected marker on that very node re-dispatches a
`SelectionChanged` for the unchanged selection — the attribute path of
`handleSelectionMutations` performs no identity check. -/
theorem C1_attr_redispatch_counterexample :
    (⟨some selOneTime.id⟩ : ObsState).currentSelectedElement = some selOneTime.id ∧
    (processCycle envWithForm ⟨some selOneTime.id⟩
        [MutationRec.attrPart selOneTime]).2 =
      [Event.selectionChanged selOneTime.id 10 PlanType.oneTime false
        ChangeType.selection,
       Event.variantUpdated ⟨some "111", true, false⟩ ("$10.00".data) "prod-1"] :=
  ⟨rfl, by decide⟩

/-- Claim C1 (corrected): the deduplication against the last dispatched node
holds on the characterData/child-list (price) mutation paths — re-processing
a DOM whose selected node is unchanged dispatches no `SelectionChanged`
there and leaves the recorded selection untouched — while a selected-marker
attribute mutation re-dispatches unconditionally
(`C1_attr_redispatch_counterexample`). -/
theorem C1_price_paths_no_redispatch (env : Env) (st : ObsState)
    (sel : SelElem) (b : Bool)
    (h1 : env.selectedInWidget = some sel)
    (h2 : st.currentSelectedElement = some sel.id) :
    countSel (processMutation env st (MutationRec.charData b)).2 = 0 ∧
    countSel (processMutation env st (MutationRec.childList b)).2 = 0 ∧
    (processMutation env st (MutationRec.charData b)).1 = st ∧
    (processMutation env st (MutationRec.childList b)).1 = st := by
  have hcp : (checkForPriceUpdate env st).1 = st ∧
      countSel (checkForPriceUpdate env st).2 = 0 := by
    rcases ht : env.observeTargetPresent with _ | _
    · rw [checkPU_no_target env st ht]
      exact ⟨rfl, rfl⟩
    · rcases hx : extractPriceData sel with _ | pd
      · rw [checkPU_same_none env st sel ht h1 h2 hx]
        exact ⟨rfl, rfl⟩
      · rw [checkPU_same_some env st sel pd ht h1 h2 hx]
        exact ⟨rfl, dispatchVU_countSel env pd.priceElement⟩
  rcases b with _ | _ <;>
    simp [processMutation, hcp.1, hcp.2, countSel]

/-- Witness for the corrected C1 statement on the concrete fixture. -/
theorem C1_price_paths_no_redispatch_witness :
    countSel (processMutation envWithForm ⟨some 1⟩ (MutationRec.charData true)).2 = 0 ∧
    countSel (processMutation envWithForm ⟨some 1⟩ (MutationRec.childList true)).2 = 0 ∧
    (processMutation envWithForm ⟨some 1⟩ (MutationRec.charData true)).1 =
      (⟨some 1⟩ : ObsState) ∧
    (processMutation envWithForm ⟨some 1⟩ (MutationRec.childList true)).1 =
      (⟨some 1⟩ : ObsState) :=
  C1_price_paths_no_redispatch envWithForm ⟨some 1⟩ selOneTime true rfl rfl

/-- Counterexample to C2 as stated: (a) a cycle whose batch contains a
selecting attribute mutation followed by a price mutation on the now-current
node dispatches one `SelectionChanged` but two `VariantUpdated`s; (b) with no
`product-form-component` in the host element, a cycle dispatches a
`SelectionChanged` and zero `VariantUpdated`s. -/
theorem C2_counterexample :
    (processCycle envWithForm ⟨none⟩
        [MutationRec.attrPart selOneTime, MutationRec.charData true]).2 =
      [Event.selectionChanged 1 10 PlanType.oneTime false ChangeType.selection,
       Event.variantUpdated ⟨some "111", true, false⟩ ("$10.00".data) "prod-1",
       Event.variantUpdated ⟨some "111", true, false⟩ ("$10.00".data) "prod-1"] ∧
    (processCycle envNoForm ⟨none⟩ [MutationRec.attrPart selOneTime]).2 =
      [Event.selectionChanged 1 10 PlanType.oneTime false ChangeType.selection] :=
  ⟨by decide, by decide⟩

/-- Claim C2 (corrected): per processed mutation record, and provided a
`product-form-component` is present, a record that emits a
`SelectionChanged` emits exactly the pair `SelectionChanged` immediately
followed by its companion `VariantUpdated` (so the ordering guarantee holds);
without the form, or counting per batch cycle, "exactly one VariantUpdated"
fails (`C2_counterexample`). -/
theorem C2_selection_change_followed (env : Env) (st : ObsState)
    (m : MutationRec) (form : FormInfo)
    (hf : env.productForm = some form) :
    countSel (processMutation env st m).2 = 0 ∨
    ∃ sid price pt hd ph,
      (processMutation env st m).2 =
        [Event.selectionChanged sid price pt hd ChangeType.selection,
         Event.variantUpdated (resolveVariantResource form.variantId env.variantJson)
           ph form.productId] := by
  rcases m with sel | b | b
  · by_cases hsel : optIncludes sel.partAttr "rc-purchase-option__selected" = true
    · have h := handle_form env sel form hf
      simpa [processMutation, hsel] using h
    · left
      simp [processMutation, hsel, countSel]
  · rcases b with _ | _
    · left
      simp [processMutation, countSel]
    · have h := checkPU_form_shape env st form hf
      simpa [processMutation] using h
  · rcases b with _ | _
    · left
      simp [processMutation, countSel]
    · have h := checkPU_form_shape env st form hf
      simpa [processMutation] using h

/-- Witness for the corrected C2 statement on the concrete fixture. -/
theorem C2_selection_change_followed_witness :
    countSel (processMutation envWithForm ⟨none⟩
      (MutationRec.attrPart selOneTime)).2 = 0 ∨
    ∃ sid price pt hd ph,
      (processMutation envWithForm ⟨none⟩ (MutationRec.attrPart selOneTime)).2 =
        [Event.selectionChanged sid price pt hd ChangeType.selection,
         Event.variantUpdated
           (resolveVariantResource formA.variantId envWithForm.variantJson)
           ph "prod-1"] :=
  C2_selection_change_followed envWithForm ⟨none⟩
    (MutationRec.attrPart selOneTime) formA rfl

/-- Claim C7 (confirmed): a mutation changing only the price text of the
node that is currently (and was previously) the selected node dispatches
exactly one `VariantUpdated` carrying the updated price markup and zero
`SelectionChanged` events, and leaves the recorded selection untouched. -/
theorem C7_price_only_mutation (env : Env) (st : ObsState) (sel : SelElem)
    (pd : PriceData) (form : FormInfo)
    (h0 : env.observeTargetPresent = true)
    (h1 : env.selectedInWidget = some sel)
    (h2 : st.currentSelectedElement = some sel.id)
    (h3 : extractPriceData sel = some pd)
    (h4 : env.productForm = some form) :
    (processCycle env st [MutationRec.charData true]).2 =
      [Event.variantUpdated (resolveVariantResource form.variantId env.variantJson)
        (jsPriceHTML pd.priceElement) form.productId] ∧
    countSel (processCycle env st [MutationRec.charData true]).2 = 0 ∧
    (processCycle env st [MutationRec.charData true]).1 = st := by
  have hptext : pd.priceElement.text ≠ [] :=
    extract_pos_text_ne_nil _ (extract_some_eq sel pd h3).2.2
  have hdisp := dispatchVU_form_some env form pd.priceElement h4
    (jsPriceHTML_ne _ (Or.inl hptext))
  have hcpu := checkPU_same_some env st sel pd h0 h1 h2 h3
  have hpm : processMutation env st (MutationRec.charData true) =
      (st, dispatchVariantUpdateEvent env pd.priceElement) := by
    simp [processMutation, hcpu]
  refine ⟨?_, ?_, ?_⟩
  · simp [processCycle, hpm, hdisp]
  · simp [processCycle, hpm, dispatchVU_countSel, countSel]
  · simp [processCycle, hpm]

/-- Witness for C7 on the concrete fixture. -/
theorem C7_price_only_mutation_witness :
    (processCycle envWithForm ⟨some 1⟩ [MutationRec.charData true]).2 =
      [Event.variantUpdated ⟨some "111", true, false⟩
        (jsPriceHTML priceNode10) "prod-1"] ∧
    countSel (processCycle envWithForm ⟨some 1⟩ [MutationRec.charData true]).2 = 0 ∧
    (processCycle envWithForm ⟨some 1⟩ [MutationRec.charData true]).1 =
      (⟨some 1⟩ : ObsState) :=
  C7_price_only_mutation envWithForm ⟨some 1⟩ selOneTime
    ⟨10, PlanType.oneTime, false, priceNode10⟩ formA rfl rfl rfl (by decide) rfl

/-! ## Plan-kind classification (C4, C10) -/

/-- Some node within the first 10 of the chain carries the token (Prop form
of the bounded walk's success condition). -/
def TokenWithinBound (l : List ChainNode) (needle : String) : Prop :=
  ∃ i, i < 10 ∧ ∃ hi : i < l.length, optIncludes (l.get ⟨i, hi⟩).part needle = true

/-- The bounded ancestor walk succeeds exactly when some node within the
depth bound carries the token. -/
theorem walkIncludes_iff (needle : String) (l : List ChainNode) (d : Nat) :
    walkIncludes needle l d = true ↔
      ∃ i, d + i < 10 ∧ ∃ hi : i < l.length,
        optIncludes (l.get ⟨i, hi⟩).part needle = true := by
  induction l generalizing d with
  | nil => simp [walkIncludes]
  | cons c rest ih =>
    unfold walkIncludes
    by_cases hd : d < 10
    · rw [if_pos hd]
      simp only [Bool.or_eq_true]
      constructor
      · rintro (h | h)
        · exact ⟨0, by omega, by simp, by simpa using h⟩
        · obtain ⟨i, hi10, hil, hopt⟩ := (ih (d + 1)).mp h
          exact ⟨i + 1, by omega, by simpa using Nat.succ_lt_succ hil,
            by simpa using hopt⟩
      · rintro ⟨i, hi10, hil, hopt⟩
        cases i with
        | zero => exact Or.inl (by simpa using hopt)
        | succ j =>
          exact Or.inr ((ih (d + 1)).mpr
            ⟨j, by omega, by simpa using hil, by simpa using hopt⟩)
    · rw [if_neg hd]
      constructor
      · intro h
        exact absurd h (by simp)
      · rintro ⟨i, hi10, -, -⟩
        exact absurd hi10 (by omega)

/-- `isOneTimeOption` in terms of `TokenWithinBound`. -/
theorem isOneTime_iff (l : List ChainNode) :
    isOneTimeOption l = true ↔ TokenWithinBound l "onetime" := by
  unfold isOneTimeOption TokenWithinBound
  rw [walkIncludes_iff]
  simp

/-- `isSubscriptionOption` in terms of `TokenWithinBound`. -/
theorem isSubscription_iff (l : List ChainNode) :
    isSubscriptionOption l = true ↔ TokenWithinBound l "subscription" := by
  unfold isSubscriptionOption TokenWithinBound
  rw [walkIncludes_iff]
  simp

/-- When neither token is within the bound, the lookup finds nothing. -/
theorem priceNodeLookup_none (sel : SelElem)
    (h1 : isOneTimeOption (containerChain sel.chain) = false)
    (h2 : isSubscriptionOption (containerChain sel.chain) = false) :
    priceNodeLookup sel = none := by
  unfold priceNodeLookup
  simp [h1, h2]

/-- The plan type a successful lookup assigns, together with the walk
outcomes that selected the branch. -/
theorem lookup_planType (sel : SelElem) (e : DNode) (pt : PlanType) (hd : Bool)
    (h : priceNodeLookup sel = some (e, pt, hd)) :
    (pt = PlanType.oneTime ∧
      isOneTimeOption (containerChain sel.chain) = true) ∨
    (pt = PlanType.subscription ∧
      isOneTimeOption (containerChain sel.chain) = false ∧
      isSubscriptionOption (containerChain sel.chain) = true) := by
  unfold priceNodeLookup at h
  split at h
  · next h1 =>
    left
    refine ⟨?_, h1⟩
    rcases hq : qsExactPart (containerDescendants sel) "rc-purchase-option__price"
      with _ | e2
    · rw [hq] at h; cases h
    · rw [hq] at h
      simp only [Option.map_some'] at h
      injection h with h2
      have h3 := congrArg (fun x => x.2.1) h2
      simpa using h3.symm
  · next h1 =>
    have h1f : isOneTimeOption (containerChain sel.chain) = false := by
      rcases hb : isOneTimeOption (containerChain sel.chain) with _ | _
      · rfl
      · exact absurd hb h1
    split at h
    · next h2 =>
      right
      refine ⟨?_, h1f, h2⟩
      rcases hq : qsExactPart (containerDescendants sel)
          "rc-purchase-option__discounted-price" with _ | e2
      · rw [hq] at h
        rcases hq2 : qsExactPart (containerDescendants sel)
            "rc-purchase-option__unit-price" with _ | e3
        · rw [hq2] at h; cases h
        · rw [hq2] at h
          simp only [Option.map_some'] at h
          injection h with h2
          have h3 := congrArg (fun x => x.2.1) h2
          simpa using h3.symm
      · rw [hq] at h
        injection h with h2
        have h3 := congrArg (fun x => x.2.1) h2
        simpa using h3.symm
    · cases h

/-- Classification as the specification words it (written from the spec, for
refutation of C4): one bounded walk, the token on the nearest matching node
deciding the plan kind. -/
def planKindNearestFirst : List ChainNode → Nat → PlanType
  | [], _ => PlanType.unknown
  | c :: rest, depth =>
    if depth < 10 then
      if optIncludes c.part "onetime" then PlanType.oneTime
      else if optIncludes c.part "subscription" then PlanType.subscription
      else planKindNearestFirst rest (depth + 1)
    else PlanType.unknown

/-- Counterexample to C4 as stated: on a chain whose nearest node carries the
subscription token and whose grand-parent carries the one-time token, the
code classifies one-time, while a nearest-match-first walk yields
subscription. -/
theorem C4_counterexample :
    (extractPriceData selMixed).map (fun pd => pd.planType) =
      some PlanType.oneTime ∧
    planKindNearestFirst selMixed.chain 0 = PlanType.subscription ∧
    planKindNearestFirst (containerChain selMixed.chain) 0 =
      PlanType.subscription :=
  ⟨by decide, by decide, by decide⟩

/-- Claim C4 (corrected): classification runs two independent bounded walks;
the plan kind is one-time iff some node within the first 10 of the
container's ancestor-or-self chain carries the one-time token — regardless
of whether a subscription token sits nearer —, otherwise subscription iff
some such node carries the subscription token, and with neither token the
plan kind stays unknown and extraction fails. -/
theorem C4_two_walks_onetime_priority :
    (∀ sel pd, extractPriceData sel = some pd →
      ((pd.planType = PlanType.oneTime ↔
         TokenWithinBound (containerChain sel.chain) "onetime") ∧
       (pd.planType = PlanType.subscription ↔
         (¬ TokenWithinBound (containerChain sel.chain) "onetime" ∧
          TokenWithinBound (containerChain sel.chain) "subscription")) ∧
       pd.planType ≠ PlanType.unknown)) ∧
    (∀ sel, ¬ TokenWithinBound (containerChain sel.chain) "onetime" →
      ¬ TokenWithinBound (containerChain sel.chain) "subscription" →
      extractPriceData sel = none) := by
  constructor
  · intro sel pd h
    obtain ⟨hl, -, -⟩ := extract_some_eq sel pd h
    rcases lookup_planType sel pd.priceElement pd.planType pd.hasDiscount hl
      with ⟨hpt, h1⟩ | ⟨hpt, h1, h2⟩
    · refine ⟨?_, ?_, ?_⟩
      · simp [hpt, (isOneTime_iff _).mp h1]
      · constructor
        · intro hc
          rw [hpt] at hc
          cases hc
        · rintro ⟨hno, -⟩
          exact absurd ((isOneTime_iff _).mp h1) hno
      · simp [hpt]
    · refine ⟨?_, ?_, ?_⟩
      · constructor
        · intro hc
          rw [hpt] at hc
          cases hc
        · intro ht
          have := (isOneTime_iff _).mpr ht
          rw [h1] at this
          cases this
      · constructor
        · intro _
          refine ⟨?_, (isSubscription_iff _).mp h2⟩
          intro ht
          have := (isOneTime_iff _).mpr ht
          rw [h1] at this
          cases this
        · intro _
          exact hpt
      · simp [hpt]
  · intro sel hno hns
    have h1 : isOneTimeOption (containerChain sel.chain) = false := by
      rcases hb : isOneTimeOption (containerChain sel.chain) with _ | _
      · rfl
      · exact absurd ((isOneTime_iff _).mp hb) hno
    have h2 : isSubscriptionOption (containerChain sel.chain) = false := by
      rcases hb : isSubscriptionOption (containerChain sel.chain) with _ | _
      · rfl
      · exact absurd ((isSubscription_iff _).mp hb) hns
    unfold extractPriceData
    rw [priceNodeLookup_none sel h1 h2]

/-- Witness for the corrected C4 statement: the one-time fixture never
classifies as unknown, and a selected node with neither token extracts
nothing. -/
theorem C4_two_walks_onetime_priority_witness :
    (⟨10, PlanType.oneTime, false, priceNode10⟩ : PriceData).planType ≠
      PlanType.unknown ∧
    extractPriceData (⟨5, [⟨some "rc-purchase-option__selected", []⟩]⟩ : SelElem) =
      none :=
  ⟨(C4_two_walks_onetime_priority.1 selOneTime
      ⟨10, PlanType.oneTime, false, priceNode10⟩ (by decide)).2.2,
   C4_two_walks_onetime_priority.2 ⟨5, [⟨some "rc-purchase-option__selected", []⟩]⟩
     (fun ht => absurd ((isOneTime_iff _).mpr ht) (by decide))
     (fun ht => absurd ((isSubscription_iff _).mpr ht) (by decide))⟩

/-! ## Pattern-loop lemmas (C6) -/

/-- Unfolding of one loop step. -/
theorem loop_cons (text : List Char) (p : List Piece) (ps : List (List Piece)) :
    extractPriceLoop text (p :: ps) =
      match patternValue p text with
      | some v => if 0 < v then v else extractPriceLoop text ps
      | none => extractPriceLoop text ps := rfl

/-- Loop step: a pattern without a usable value falls through. -/
theorem loop_cons_none (text : List Char) (p : List Piece) (ps : List (List Piece))
    (h : patternValue p text = none) :
    extractPriceLoop text (p :: ps) = extractPriceLoop text ps := by
  rw [loop_cons, h]

/-- Loop step: the first strictly positive value is returned. -/
theorem loop_cons_pos (text : List Char) (p : List Piece) (ps : List (List Piece))
    (v : ℚ) (h : patternValue p text = some v) (hv : 0 < v) :
    extractPriceLoop text (p :: ps) = v := by
  rw [loop_cons, h]
  exact if_pos hv

/-- Loop step: a non-positive value falls through. -/
theorem loop_cons_nonpos (text : List Char) (p : List Piece) (ps : List (List Piece))
    (v : ℚ) (h : patternValue p text = some v) (hv : ¬ 0 < v) :
    extractPriceLoop text (p :: ps) = extractPriceLoop text ps := by
  rw [loop_cons, h]
  exact if_neg hv

/-- The loop returns `0` exactly when every pattern yields no value or a
non-positive one. -/
theorem extractPriceLoop_zero_iff (text : List Char) (l : List (List Piece)) :
    extractPriceLoop text l = 0 ↔
      ∀ p ∈ l, ∀ w, patternValue p text = some w → w ≤ 0 := by
  induction l with
  | nil => simp [extractPriceLoop]
  | cons p ps ih =>
    rcases hv : patternValue p text with _ | v
    · rw [loop_cons_none text p ps hv, ih]
      constructor
      · intro h q hq w hw
        rcases List.mem_cons.mp hq with rfl | hq2
        · rw [hv] at hw
          cases hw
        · exact h q hq2 w hw
      · intro h q hq w hw
        exact h q (List.mem_cons_of_mem _ hq) w hw
    · by_cases hp : 0 < v
      · rw [loop_cons_pos text p ps v hv hp]
        constructor
        · intro h
          rw [h] at hp
          exact absurd hp (lt_irrefl 0)
        · intro h
          have hle := h p (List.mem_cons_self _ _) v hv
          exact absurd hp (not_lt.mpr hle)
      · rw [loop_cons_nonpos text p ps v hv hp, ih]
        constructor
        · intro h q hq w hw
          rcases List.mem_cons.mp hq with rfl | hq2
          · rw [hv] at hw
            injection hw with hw2
            rw [← hw2]
            exact not_lt.mp hp
          · exact h q hq2 w hw
        · intro h q hq w hw
          exact h q (List.mem_cons_of_mem _ hq) w hw

/-- The loop returns the value of the first pattern yielding a strictly
positive value, whenever all earlier patterns yield none or non-positive. -/
theorem extractPriceLoop_first (text : List Char) (l : List (List Piece))
    (i : Nat) (hi : i < l.length) (v : ℚ)
    (hv : patternValue (l.get ⟨i, hi⟩) text = some v) (hpos : 0 < v)
    (hbefore : ∀ j, ∀ hj : j < i, ∀ w,
      patternValue (l.get ⟨j, Nat.lt_trans hj hi⟩) text = some w → w ≤ 0) :
    extractPriceLoop text l = v := by
  induction l generalizing i with
  | nil => exact absurd hi (by simp)
  | cons p ps ih =>
    cases i with
    | zero =>
      exact loop_cons_pos text p ps v hv hpos
    | succ j =>
      have hj2 : j < ps.length := Nat.lt_of_succ_lt_succ hi
      have hv2 : patternValue (ps.get ⟨j, hj2⟩) text = some v := hv
      have hrest : ∀ k, ∀ hk : k < j, ∀ w,
          patternValue (ps.get ⟨k, Nat.lt_trans hk hj2⟩) text = some w → w ≤ 0 :=
        fun k hk w hw => hbefore (k + 1) (Nat.succ_lt_succ hk) w hw
      rcases h0v : patternValue p text with _ | w
      · rw [loop_cons_none text p ps h0v]
        exact ih j hj2 hv2 hrest
      · have hw : w ≤ 0 := hbefore 0 (Nat.succ_pos j) w h0v
        rw [loop_cons_nonpos text p ps w h0v (not_lt.mpr hw)]
        exact ih j hj2 hv2 hrest

/-- Claim C6 (confirmed): price parsing applies the five patterns in order;
the result is the value of the first pattern yielding a strictly positive
value; parsing fails (returns the `0` failure marker, so `extractPriceData`
returns the warned `none` and nothing is dispatched) exactly when every
pattern yields no match or a non-positive value.  The functions are total:
no exception can arise. -/
theorem C6_ordered_patterns (text : List Char) :
    (extractPriceFromElement text = 0 ↔
      ∀ p ∈ pricePatterns, ∀ w, patternValue p text = some w → w ≤ 0) ∧
    (∀ i, ∀ hi : i < pricePatterns.length, ∀ v,
      patternValue (pricePatterns.get ⟨i, hi⟩) text = some v → 0 < v →
      (∀ j, ∀ hj : j < i, ∀ w,
        patternValue (pricePatterns.get ⟨j, Nat.lt_trans hj hi⟩) text = some w →
          w ≤ 0) →
      extractPriceFromElement text = v) ∧
    (∀ env sel, extractPriceData sel = none →
      (handlePurchaseOptionSelected env sel).2 = []) := by
  refine ⟨extractPriceLoop_zero_iff text pricePatterns, ?_, ?_⟩
  · intro i hi v hv hpos hb
    exact extractPriceLoop_first text pricePatterns i hi v hv hpos hb
  · intro env sel h
    rw [handle_none env sel h]

/-- Witness for C6: the first pattern wins on a plain dollar price. -/
theorem C6_ordered_patterns_witness :
    extractPriceFromElement ("$10.00".data) = 10 :=
  (C6_ordered_patterns ("$10.00".data)).2.1 0 (by decide) 10 (by decide)
    (by decide) (fun j hj => absurd hj (Nat.not_lt_zero j))

/-! ## No `unknown` plan kind is ever dispatched (C10) -/

/-- The plan type of a successful extraction is never `unknown`. -/
theorem extract_planType (sel : SelElem) (pd : PriceData)
    (h : extractPriceData sel = some pd) :
    pd.planType = PlanType.oneTime ∨ pd.planType = PlanType.subscription := by
  obtain ⟨hl, -, -⟩ := extract_some_eq sel pd h
  rcases lookup_planType sel pd.priceElement pd.planType pd.hasDiscount hl with
    ⟨hpt, -⟩ | ⟨hpt, -, -⟩
  · exact Or.inl hpt
  · exact Or.inr hpt

/-- A selection-change event inside `dispatchPurchaseOptionChangeEvent`
output carries the extracted plan type, hence never `unknown`. -/
theorem dispatchPOCE_selchange_planType (env : Env) (sel : SelElem)
    (pd : PriceData) (ct : ChangeType) (sid : Nat) (p : ℚ) (pt : PlanType)
    (hd : Bool) (ct2 : ChangeType)
    (hx : extractPriceData sel = some pd)
    (h : Event.selectionChanged sid p pt hd ct2 ∈
      dispatchPurchaseOptionChangeEvent env sel pd ct) :
    pt = PlanType.oneTime ∨ pt = PlanType.subscription := by
  unfold dispatchPurchaseOptionChangeEvent at h
  rcases List.mem_cons.mp h with heq | hmem
  · injection heq with h1 h2 h3 h4 h5
    rw [h3]
    exact extract_planType sel pd hx
  · rcases dispatchVU_shape env pd.priceElement with hsh | ⟨form, -, hsh⟩
    · rw [hsh] at hmem
      exact absurd hmem (List.not_mem_nil _)
    · rw [hsh] at hmem
      exact Event.noConfusion (List.mem_singleton.mp hmem)

/-- Selection-change events from `handlePurchaseOptionSelected` never carry
`unknown`. -/
theorem handle_selchange_planType (env : Env) (sel : SelElem) (sid : Nat)
    (p : ℚ) (pt : PlanType) (hd : Bool) (ct : ChangeType)
    (h : Event.selectionChanged sid p pt hd ct ∈
      (handlePurchaseOptionSelected env sel).2) :
    pt = PlanType.oneTime ∨ pt = PlanType.subscription := by
  rcases hx : extractPriceData sel with _ | pd
  · rw [handle_none env sel hx] at h
    exact absurd h (List.not_mem_nil _)
  · rw [handle_some env sel pd hx] at h
    exact dispatchPOCE_selchange_planType env sel pd ChangeType.selection
      sid p pt hd ct hx h

/-- Selection-change events from `checkForPriceUpdate` never carry
`unknown`. -/
theorem checkPU_selchange_planType (env : Env) (st : ObsState) (sid : Nat)
    (p : ℚ) (pt : PlanType) (hd : Bool) (ct : ChangeType)
    (h : Event.selectionChanged sid p pt hd ct ∈ (checkForPriceUpdate env st).2) :
    pt = PlanType.oneTime ∨ pt = PlanType.subscription := by
  rcases ht : env.observeTargetPresent with _ | _
  · rw [checkPU_no_target env st ht] at h
    exact absurd h (List.not_mem_nil _)
  · rcases hs : env.selectedInWidget with _ | sel
    · rw [checkPU_no_sel env st ht hs] at h
      exact absurd h (List.not_mem_nil _)
    · by_cases hid : st.currentSelectedElement = some sel.id
      · rcases hx : extractPriceData sel with _ | pd
        · rw [checkPU_same_none env st sel ht hs hid hx] at h
          exact absurd h (List.not_mem_nil _)
        · rw [checkPU_same_some env st sel pd ht hs hid hx] at h
          rcases dispatchVU_shape env pd.priceElement with hsh | ⟨form, -, hsh⟩
          · rw [hsh] at h
            exact absurd h (List.not_mem_nil _)
          · rw [hsh] at h
            exact Event.noConfusion (List.mem_singleton.mp h)
      · rw [checkPU_diff env st sel ht hs hid] at h
        exact handle_selchange_planType env sel sid p pt hd ct h

/-- Selection-change events from one mutation record never carry `unknown`. -/
theorem processMutation_selchange_planType (env : Env) (st : ObsState)
    (m : MutationRec) (sid : Nat) (p : ℚ) (pt : PlanType) (hd : Bool)
    (ct : ChangeType)
    (h : Event.selectionChanged sid p pt hd ct ∈ (processMutation env st m).2) :
    pt = PlanType.oneTime ∨ pt = PlanType.subscription := by
  rcases m with sel | b | b
  · by_cases hsel : optIncludes sel.partAttr "rc-purchase-option__selected" = true
    · have he : processMutation env st (MutationRec.attrPart sel) =
          handlePurchaseOptionSelected env sel := by
        simp [processMutation, hsel]
      rw [he] at h
      exact handle_selchange_planType env sel sid p pt hd ct h
    · have he : processMutation env st (MutationRec.attrPart sel) = (st, []) := by
        simp [processMutation, hsel]
      rw [he] at h
      exact absurd h (List.not_mem_nil _)
  · rcases b with _ | _
    · have he : processMutation env st (MutationRec.charData false) = (st, []) := by
        simp [processMutation]
      rw [he] at h
      exact absurd h (List.not_mem_nil _)
    · have he : processMutation env st (MutationRec.charData true) =
          checkForPriceUpdate env st := by
        simp [processMutation]
      rw [he] at h
      exact checkPU_selchange_planType env st sid p pt hd ct h
  · rcases b with _ | _
    · have he : processMutation env st (MutationRec.childList false) = (st, []) := by
        simp [processMutation]
      rw [he] at h
      exact absurd h (List.not_mem_nil _)
    · have he : processMutation env st (MutationRec.childList true) =
          checkForPriceUpdate env st := by
        simp [processMutation]
      rw [he] at h
      exact checkPU_selchange_planType env st sid p pt hd ct h

/-- Unfolding of a cycle step. -/
theorem processCycle_cons (env : Env) (st : ObsState) (m : MutationRec)
    (ms : List MutationRec) :
    processCycle env st (m :: ms) =
      ((processCycle env (processMutation env st m).1 ms).1,
       (processMutation env st m).2 ++
         (processCycle env (processMutation env st m).1 ms).2) := rfl

/-- Selection-change events from `checkForInitialSelection` never carry
`unknown`. -/
theorem checkInit_selchange_planType (e : DiscEnv) (s : DiscState) (sid : Nat)
    (p : ℚ) (pt : PlanType) (hd : Bool) (ct : ChangeType)
    (h : Event.selectionChanged sid p pt hd ct ∈ (checkForInitialSelection e s).2) :
    pt = PlanType.oneTime ∨ pt = PlanType.subscription := by
  unfold checkForInitialSelection at h
  by_cases h1 : (s.container || e.env.observeTargetPresent) = true
  · rw [if_pos h1] at h
    by_cases h2 : e.hasSubscriptionOpts = true
    · rw [if_pos h2] at h
      rcases hs : e.env.selectedInWidget with _ | sel
      · simp only [hs] at h
        exact absurd h (List.not_mem_nil _)
      · simp only [hs] at h
        rcases hx : extractPriceData sel with _ | pd
        · simp only [hx] at h
          exact absurd h (List.not_mem_nil _)
        · simp only [hx] at h
          exact dispatchPOCE_selchange_planType e.env sel pd ChangeType.initialLoad
            sid p pt hd ct hx h
    · rw [if_neg h2] at h
      exact absurd h (List.not_mem_nil _)
  · rw [if_neg h1] at h
    exact absurd h (List.not_mem_nil _)

/-- Claim C10 (confirmed): every dispatched `SelectionChanged` carries plan
type one-time or subscription, never `unknown` — both on mutation cycles and
on the initial-load check — and when the bounded walks find neither token,
extraction fails and the handler dispatches nothing. -/
theorem C10_no_unknown_dispatch :
    (∀ env st ms sid p pt hd ct,
      Event.selectionChanged sid p pt hd ct ∈ (processCycle env st ms).2 →
      pt = PlanType.oneTime ∨ pt = PlanType.subscription) ∧
    (∀ e s sid p pt hd ct,
      Event.selectionChanged sid p pt hd ct ∈ (checkForInitialSelection e s).2 →
      pt = PlanType.oneTime ∨ pt = PlanType.subscription) ∧
    (∀ sel, isOneTimeOption (containerChain sel.chain) = false →
      isSubscriptionOption (containerChain sel.chain) = false →
      extractPriceData sel = none ∧
      ∀ env, (handlePurchaseOptionSelected env sel).2 = []) := by
  refine ⟨?_, ?_, ?_⟩
  · intro env st ms
    induction ms generalizing st with
    | nil =>
      intro sid p pt hd ct h
      exact absurd h (List.not_mem_nil _)
    | cons m ms ih =>
      intro sid p pt hd ct h
      rw [processCycle_cons] at h
      rcases List.mem_append.mp h with h1 | h2
      · exact processMutation_selchange_planType env st m sid p pt hd ct h1
      · exact ih (processMutation env st m).1 sid p pt hd ct h2
  · intro e s sid p pt hd ct h
    exact checkInit_selchange_planType e s sid p pt hd ct h
  · intro sel h1 h2
    have hx : extractPriceData sel = none := by
      unfold extractPriceData
      rw [priceNodeLookup_none sel h1 h2]
    exact ⟨hx, fun env => by rw [handle_none env sel hx]⟩

/-- Witness for C10 on a concrete dispatching cycle. -/
theorem C10_no_unknown_dispatch_witness :
    PlanType.oneTime = PlanType.oneTime ∨ PlanType.oneTime = PlanType.subscription :=
  C10_no_unknown_dispatch.1 envWithForm ⟨none⟩ [MutationRec.attrPart selOneTime]
    1 10 PlanType.oneTime false ChangeType.selection (by decide)

/-! ## Discovery retry bound (C9) and teardown (C3) -/

/-- Claim C9 (confirmed): when the boundary is never exposed, the retry
chain runs exactly the bounded sequence of attempts 0,…,10 (strictly
increasing), leaves the session state untouched — no watcher attached, no
container bound, and no timer pending after the last attempt — and emits no
event; being a total function, it surfaces no exception. -/
theorem C9_bounded_retry (e : DiscEnv) (s : DiscState)
    (h : ∀ n, e.foundAt n = false) :
    retryRun e 0 s = (s, [], [0, 1, 2, 3, 4, 5, 6, 7, 8, 9, 10]) ∧
    List.Chain' (fun a b => a < b) [0, 1, 2, 3, 4, 5, 6, 7, 8, 9, 10] := by
  constructor
  · simp [retryRun, h]
  · simp [List.chain'_cons]

/-- Witness for C9 with a never-found environment. -/
theorem C9_bounded_retry_witness :
    retryRun ⟨fun _ => false, false, false, envNoForm⟩ 0 discInit =
      (discInit, [], [0, 1, 2, 3, 4, 5, 6, 7, 8, 9, 10]) ∧
    List.Chain' (fun a b => a < b) [0, 1, 2, 3, 4, 5, 6, 7, 8, 9, 10] :=
  C9_bounded_retry ⟨fun _ => false, false, false, envNoForm⟩ discInit
    (fun _ => rfl)

/-- Claim C3 (code bug): `destroy()` disconnects the three observers, but
the pending `setTimeout` scheduled by `retryFindShadowRoot` is never
cancelled — the source stores no timer id — so tearing down mid-discovery
leaves the scheduled retry alive, and when it fires after the shadow root
has appeared it re-attaches a selection observer and a content-ready
observer on the destroyed session.  Concretely: the call at attempt 0
schedules attempt 1; `destroy` clears all observers; the un-cancelled timer
fires at attempt 1, finds the boundary, and attaches two watchers. -/
theorem C3_teardown_timer_leak :
    (retryCall discEnvLate 0 discInit).2.2 = some 1 ∧
    (destroyObserver discInit).selObs = false ∧
    (destroyObserver discInit).widgetContentObs = false ∧
    (destroyObserver discInit).widgetObs = false ∧
    (retryCall discEnvLate 1 (destroyObserver discInit)).1.selObs = true ∧
    (retryCall discEnvLate 1 (destroyObserver discInit)).1.widgetContentObs = true :=
  ⟨rfl, rfl, rfl, rfl, rfl, rfl⟩

end RechargeObs
